import Mathlib

/-
Verification of the kuberhealthy external check executor
(`pkg/checks/external/main.go`) against its natural-language
specification.  The Go source is shallowly embedded: pure logic becomes
Lean functions, the cluster API and the scheduler are modelled as
explicit oracle inputs (traces of API results and timer outcomes), and
Go `error` returns become `Except String`.  Durations are modelled as
Go `time.Duration` values, i.e. natural numbers of nanoseconds.
-/

namespace Kuberhealthy

/-- One environment variable of a container (`apiv1.EnvVar`). -/
structure EnvVar where
  name : String
  value : String
  deriving DecidableEq, Repr

/-- A container of a pod spec (`apiv1.Container`): the fields the executor
reads or writes, plus representative pass-through fields (kept so the
frame property of the decorator is expressible).  Fields the executor
never touches are kept at their source types where simple and as plain
placeholders otherwise. -/
structure Container where
  name : String
  image : String
  command : List String
  args : List String
  env : List EnvVar
  resources : String
  volumeMounts : List String
  deriving DecidableEq, Repr

/-- Pod phase (`apiv1.PodPhase` is a string type in the source). -/
def PodPending : String := "Pending"

/-- Phase value `apiv1.PodRunning`. -/
def PodRunning : String := "Running"

/-- Phase value `apiv1.PodSucceeded`. -/
def PodSucceeded : String := "Succeeded"

/-- Phase value `apiv1.PodFailed`. -/
def PodFailed : String := "Failed"

/-- Restart policy value `apiv1.RestartPolicyNever` (also a string type). -/
def RestartPolicyNever : String := "Never"

/-- A pod spec (`apiv1.PodSpec`): the fields the executor reads or
writes (`Hostname`, `Containers`, `InitContainers`, `RestartPolicy`)
plus the pass-through fields named by the specification. -/
structure PodSpec where
  hostname : String
  containers : List Container
  initContainers : List Container
  restartPolicy : String
  nodeSelector : List (String × String)
  tolerations : List String
  volumes : List String
  serviceAccountName : String
  deriving DecidableEq, Repr

/-- Pod status (`apiv1.PodStatus`): phase and start time.  The start
time is nanoseconds since the epoch; `0` models the zero `metav1.Time`
(`StartTime.IsZero()`). -/
structure PodStatus where
  phase : String
  startTime : Nat
  deriving DecidableEq, Repr

/-- A pod (`apiv1.Pod`).  `ns` is the source's `Namespace` field
(`namespace` is a Lean keyword).  Labels are a string-to-string map,
modelled as an association list read through `labelValue`. -/
structure Pod where
  name : String
  ns : String
  labels : List (String × String)
  spec : PodSpec
  status : PodStatus
  deriving DecidableEq, Repr

/-- Go map read `m[k]`: the value stored at `k`, or `""` (Go's zero
string) when the key is absent. -/
def labelValue (m : List (String × String)) (k : String) : String :=
  match m.find? (fun p => p.1 == k) with
  | some p => p.2
  | none => ""

/-- Go map write `m[k] = v`: stores `v` at `k`, overwriting any
previous binding. -/
def setLabel (m : List (String × String)) (k v : String) : List (String × String) :=
  (k, v) :: m.filter (fun p => p.1 ≠ k)

/-- Source `DefaultKuberhealthyReportingURL` from the source. -/
def DefaultKuberhealthyReportingURL : String := "http://kuberhealthy.kuberhealthy.svc.local"

/-- Source `kuberhealthyRunIDLabel` from the source. -/
def kuberhealthyRunIDLabel : String := "kuberhealthy-run-id"

/-- Source `kuberhealthyCheckNameLabel` from the source. -/
def kuberhealthyCheckNameLabel : String := "kuberhealthy-check-name"

/-- Go's `time.Minute` in nanoseconds. -/
def timeMinute : Nat := 60 * 1000000000

/-- Source `defaultMaxRunTime = time.Minute * 15`. -/
def defaultMaxRunTime : Nat := timeMinute * 15

/-- Source `defaultMaxStartTime = time.Minute * 5`. -/
def defaultMaxStartTime : Nat := timeMinute * 5

/-- Source `DefaultName = "external-check"`. -/
def DefaultName : String := "external-check"

/-- Source `NamePrefix = DefaultName`. -/
def NamePrefix : String := DefaultName

/-- Source `defaultRunInterval = time.Minute * 10`. -/
def defaultRunInterval : Nat := timeMinute * 10

/-- The `Checker` struct.  The Kubernetes client pointer is modelled by
the flag `hasKubeClient` (`kubeClient != nil`); the user pod spec
pointer `*apiv1.PodSpec` becomes `Option PodSpec`. -/
structure Checker where
  CheckName : String
  Namespace : String
  ErrorMessages : List String
  RunInterval : Nat
  maxRunTime : Nat
  startupTimeout : Nat
  hasKubeClient : Bool
  PodSpec : Option PodSpec
  PodDeployed : Bool
  PodName : String
  RunID : String
  KuberhealthyReportingURL : String
  currentCheckUUID : String
  Debug : Bool
  deriving DecidableEq, Repr

/-- Source `New()` builds a checker with the documented defaults.  The
namespace comes from the `POD_NAMESPACE` environment variable, passed
here as `podNamespace`; every field `New` does not set keeps its Go
zero value. -/
def New (podNamespace : String) : Checker :=
  { ErrorMessages := []
    Namespace := podNamespace
    CheckName := DefaultName
    RunInterval := defaultRunInterval
    KuberhealthyReportingURL := DefaultKuberhealthyReportingURL
    maxRunTime := defaultMaxRunTime
    startupTimeout := defaultMaxStartTime
    PodName := DefaultName
    hasKubeClient := false
    PodSpec := none
    PodDeployed := false
    RunID := ""
    currentCheckUUID := ""
    Debug := false }

/-- Source `CurrentStatus` returns the status of the check as of right now. -/
def CurrentStatus (ext : Checker) : Bool × List String :=
  if ext.ErrorMessages.length > 0 then
    (false, ext.ErrorMessages)
  else
    (true, ext.ErrorMessages)

/-- Source `Name()` returns the exposed name of this check. -/
def Checker.Name (ext : Checker) : String :=
  NamePrefix ++ "-" ++ ext.CheckName

/-- Source `Interval()`. -/
def Checker.Interval (ext : Checker) : Nat :=
  ext.RunInterval

/-- Source `Timeout()` returns the max run time for the check. -/
def Checker.Timeout (ext : Checker) : Nat :=
  ext.maxRunTime

/-- Source `setError`: overwrites all prior error state with one message. -/
def setError (ext : Checker) (s : String) : Checker :=
  { ext with ErrorMessages := [s] }

/-- Source `clearErrors` (defined in the source but never called). -/
def clearErrors (ext : Checker) : Checker :=
  { ext with ErrorMessages := [] }

/-- Source `addError`: appends a message to the error list. -/
def addError (ext : Checker) (s : String) : Checker :=
  { ext with ErrorMessages := ext.ErrorMessages ++ [s] }

/-- Source `validatePodSpec`: checks the user-specified pod spec. -/
def validatePodSpec (ext : Checker) : Except String Unit :=
  match ext.PodSpec with
  | none => .error "unable to determine pod spec for checker  Pod spec was nil"
  | some ps =>
    if ps.containers.length = 0 && ps.initContainers.length = 0 then
      .error "no containers found in checks PodSpec"
    else if ps.containers.length = 0 then
      .error "no containers found in checks PodSpec"
    else
      match ps.containers.find? (fun c => c.image.length = 0) with
      | some c => .error ("no image found in check's PodSpec for container " ++ c.name ++ ".")
      | none => .ok ()

/-- The two environment variables `configureUserPodSpec` appends to
every container. -/
def overwriteEnvVars (ext : Checker) : List EnvVar :=
  [{ name := "KUBERHEALTHY_URL", value := ext.KuberhealthyReportingURL },
   { name := "KUBERHEALTHY_RUN_ID", value := ext.currentCheckUUID }]

/-- The pod spec after `configureUserPodSpec` ran on it: hostname set
to the check name, the two kuberhealthy env vars appended to every
container, restart policy forced to `Never`. -/
def decoratedPodSpec (ext : Checker) (ps : PodSpec) : PodSpec :=
  { ps with
    hostname := ext.CheckName
    containers := ps.containers.map
      (fun c => { c with env := c.env ++ overwriteEnvVars ext })
    restartPolicy := RestartPolicyNever }

/-- The checker after its pod spec was decorated in place. -/
def configuredChecker (ext : Checker) (ps : PodSpec) : Checker :=
  { ext with PodSpec := some (decoratedPodSpec ext ps) }

/-- Source `configureUserPodSpec`: decorates the user pod spec in place.  The
Go function always returns a nil error; its only failure mode is the
nil-pointer dereference when `PodSpec` is nil, modelled as `none`. -/
def configureUserPodSpec (ext : Checker) : Option Checker :=
  match ext.PodSpec with
  | none => none
  | some ps => some (configuredChecker ext ps)

/-- Source `addKuberhealthyLabels`: stacks the run-id and check-name labels on
top of the pod's existing labels (creating the map when absent; an
association list needs no such step). -/
def addKuberhealthyLabels (ext : Checker) (pod : Pod) : Pod :=
  { pod with
    labels :=
      setLabel (setLabel pod.labels kuberhealthyRunIDLabel ext.currentCheckUUID)
        kuberhealthyCheckNameLabel ext.CheckName }

/-- The label selector `deletePod` uses
(`kuberhealthyCheckNameLabel + "=" + ext.CheckName`). -/
def selectorFor (ext : Checker) : String :=
  kuberhealthyCheckNameLabel ++ "=" ++ ext.CheckName

/-- Source `sanityCheck`: basic parameter check before running. -/
def sanityCheck (ext : Checker) : Except String Unit :=
  if ext.Namespace = "" then
    .error "check namespace can not be empty"
  else if ext.PodName = "" then
    .error "pod name can not be empty"
  else if ext.hasKubeClient = false then
    .error "kubeClient can not be nil"
  else
    .ok ()

/-- The pod built by `createPod` before it is handed to the API: an
empty `apiv1.Pod` with the namespace, name and (already configured)
spec filled in and the kuberhealthy labels added. -/
def buildCheckerPod (ext : Checker) : Pod :=
  addKuberhealthyLabels ext
    { name := ext.PodName
      ns := ext.Namespace
      labels := []
      spec := (ext.PodSpec).getD
        { hostname := "", containers := [], initContainers := [], restartPolicy := ""
          nodeSelector := [], tolerations := [], volumes := [], serviceAccountName := "" }
      status := { phase := "", startTime := 0 } }

/-- Source `podExists`: interprets the result of `get(pod name)`.  A get error
is propagated; a fetched pod counts as existing exactly when its start
time is non-zero and its phase is not `Failed`. -/
def podExists (getResult : Except String Pod) : Except String Bool :=
  match getResult with
  | .error e => .error e
  | .ok p =>
    if p.status.startTime ≠ 0 ∧ p.status.phase ≠ PodFailed then
      .ok true
    else
      .ok false

/-- One event delivered by a pod watch.  `pod` is the event's payload
downcast to a pod (`none` models a payload that is not a pod); `ctxDone`
records whether the cancellation context is observed as done at the
check the watcher performs after handling this event (the source checks
`ctx.Done()` only after a matching pod that did not satisfy the phase
test — skipped events never reach that check). -/
structure WatchEvent where
  pod : Option Pod
  ctxDone : Bool
  deriving DecidableEq, Repr

/-- The drain loop of `waitForPodRunning`: processes watch events in
order and produces the value the function buffers into its channel
(`Except.ok ()` for the nil error). -/
def drainPodRunning (runID : String) : List WatchEvent → Except String Unit
  | [] => .error "external checker watch aborted pre-maturely"
  | e :: rest =>
    match e.pod with
    | none => drainPodRunning runID rest
    | some p =>
      if labelValue p.labels kuberhealthyRunIDLabel ≠ runID then
        drainPodRunning runID rest
      else if p.status.phase = PodRunning ∨ p.status.phase = PodFailed then
        .ok ()
      else if e.ctxDone then
        .error "external checker pod startup watch aborted"
      else
        drainPodRunning runID rest

/-- Source `waitForPodRunning`: a failed watch setup is sent on the channel
as-is; otherwise the drain loop runs on the events the watch delivers
before it closes. -/
def waitForPodRunning (ext : Checker) (watchSetup : Except String (List WatchEvent)) :
    Except String Unit :=
  match watchSetup with
  | .error e => .error e
  | .ok events => drainPodRunning ext.currentCheckUUID events

/-- The drain loop of `waitForPodExit` (terminal-phase predicate). -/
def drainPodExit (runID : String) : List WatchEvent → Except String Unit
  | [] => .error "external checker watch aborted pre-maturely"
  | e :: rest =>
    match e.pod with
    | none => drainPodExit runID rest
    | some p =>
      if labelValue p.labels kuberhealthyRunIDLabel ≠ runID then
        drainPodExit runID rest
      else if p.status.phase = PodSucceeded ∨ p.status.phase = PodFailed then
        .ok ()
      else if e.ctxDone then
        .error "external checker pod completion watch aborted"
      else
        drainPodExit runID rest

/-- Source `waitForPodExit`. -/
def waitForPodExit (ext : Checker) (watchSetup : Except String (List WatchEvent)) :
    Except String Unit :=
  match watchSetup with
  | .error e => .error e
  | .ok events => drainPodExit ext.currentCheckUUID events

/-- An API or scheduling action the executor performs, recorded in
order so that claims about which calls are issued can be stated. -/
inductive Action where
  | deleteBySelector (selector : String)
  | createPod (p : Pod)
  | cancelWatch
  | getPod (name : String)
  deriving DecidableEq, Repr

/-- One turn of the `waitForShutdown` poll loop, as seen by the
checker: the result of the `get(pod name)` call it makes after the
500 ms sleep, and whether the shutdown context is observed as done at
the check that follows. -/
structure PollStep where
  getResult : Except String Pod
  ctxDone : Bool
  deriving Repr

/-- Source `waitForShutdown`: repeatedly fetches the pod until it is gone or
the context is cancelled.  The trace lists the successive poll turns;
`none` means the trace was exhausted with the loop still polling.  Each
turn issues one `get`, so the action list records one `getPod` per
consumed step. -/
def waitForShutdown (podName : String) :
    List PollStep → Option (Except String Unit) × List Action
  | [] => (none, [])
  | s :: rest =>
    match podExists s.getResult with
    | .error e => (some (.error e), [.getPod podName])
    | .ok false => (some (.ok ()), [.getPod podName])
    | .ok true =>
      if s.ctxDone then
        (some (.error "timed out when waiting for pod to shutdown"), [.getPod podName])
      else
        let r := waitForShutdown podName rest
        (r.1, .getPod podName :: r.2)

/-- The environment `Shutdown` runs against: the result of the
delete-by-selector call and the poll-loop trace.  The shutdown context
is cancelled after `ext.Timeout()`; that deadline is reflected in the
`ctxDone` flags of the trace. -/
structure ShutdownEnv where
  deleteResult : Except String Unit
  pollTrace : List PollStep
  deriving Repr

/-- Source `Shutdown`: if the pod is deployed, delete it and wait (bounded)
for it to disappear; otherwise return success immediately.  Returns
the outcome (`none` when the poll trace was exhausted undecided) and
the API actions performed. -/
def Shutdown (ext : Checker) (env : ShutdownEnv) :
    Option (Except String Unit) × List Action :=
  if ext.PodDeployed then
    match env.deleteResult with
    | .error e => (some (.error e), [.deleteBySelector (selectorFor ext)])
    | .ok _ =>
      let r := waitForShutdown ext.PodName env.pollTrace
      (r.1, .deleteBySelector (selectorFor ext) :: r.2)
  else
    (some (.ok ()), [])

/-- The checker after `execute`'s first two steps: the client handle is
attached and a fresh run UUID is minted (`createCheckUUID`). -/
def withClientAndUUID (ext0 : Checker) (u : String) : Checker :=
  { ext0 with hasKubeClient := true, currentCheckUUID := u }

/-- The oracle environment for one `execute` iteration: the UUID the
run-ID generator mints, the results of the API calls `execute` makes,
which side of each timer/watcher select fired, and the event lists the
two watches deliver. -/
structure ExecEnv where
  newUUID : String
  deleteStraysResult : Except String Unit
  createResult : Except String Unit
  startupTimerFired : Bool
  startupDeleteResult : Except String Unit
  startupWatch : Except String (List WatchEvent)
  runTimerFired : Bool
  runDeleteResult : Except String Unit
  runWatch : Except String (List WatchEvent)
  deriving Repr

/-- Source `execute`: one iteration of the execution engine, in the source's
strict sequence — set client, mint UUID, validate, configure, sanity
check, delete strays, create pod, race the startup watcher against the
startup timer, race the exit watcher against the run timer.  Returns
the checker state after the iteration, the iteration's error result,
and the actions performed.  Both `select` statements in the source
receive the watcher channel's value and discard it, which is mirrored
here by the unused `let` bindings. -/
def execute (ext0 : Checker) (env : ExecEnv) : Checker × Except String Unit × List Action :=
  let ext : Checker := withClientAndUUID ext0 env.newUUID
  match validatePodSpec ext with
  | .error e => (ext, .error e, [])
  | .ok _ =>
    match configureUserPodSpec ext with
    | none => (ext, .error "failed to configure pod spec for Kubernetes from user specified pod spec: nil pod spec", [])
    | some extC =>
      match sanityCheck extC with
      | .error e => (extC, .error e, [])
      | .ok _ =>
        match env.deleteStraysResult with
        | .error e =>
          (extC, .error ("failed to clean up pods before starting external checker: " ++ e),
            [.deleteBySelector (selectorFor extC)])
        | .ok _ =>
          match env.createResult with
          | .error e =>
            (extC, .error ("failed to create pod for checker: " ++ e),
              [.deleteBySelector (selectorFor extC), .createPod (buildCheckerPod extC)])
          | .ok _ =>
            let baseActs : List Action :=
              [.deleteBySelector (selectorFor extC), .createPod (buildCheckerPod extC)]
            if env.startupTimerFired then
              match env.startupDeleteResult with
              | .error e =>
                (extC, .error ("failed to see pod running within timeout"
                    ++ " and an error occurred when deleting the pod:" ++ e),
                  baseActs ++ [.cancelWatch, .deleteBySelector (selectorFor extC)])
              | .ok _ =>
                (extC, .error "failed to see pod running within timeout",
                  baseActs ++ [.cancelWatch, .deleteBySelector (selectorFor extC)])
            else
              let _startupSignal := waitForPodRunning extC env.startupWatch
              let extD : Checker := { extC with PodDeployed := true }
              if env.runTimerFired then
                match env.runDeleteResult with
                | .error e =>
                  (extD, .error ("pod ran too long and was shut down"
                      ++ " but an error occurred when deleting the pod:" ++ e),
                    baseActs ++ [.cancelWatch, .deleteBySelector (selectorFor extD)])
                | .ok _ =>
                  (extD, .error "pod ran too long and was shut down",
                    baseActs ++ [.cancelWatch, .deleteBySelector (selectorFor extD)])
              else
                let _exitSignal := waitForPodExit extD env.runWatch
                (extD, .ok (), baseActs)

/-- One turn of `Run`'s loop: run an iteration and, when it returned an
error, replace the error buffer with that single message.  On success
the buffer is left untouched (the source never calls `clearErrors`). -/
def runOnce (ext : Checker) (env : ExecEnv) : Checker :=
  let r := execute ext env
  match r.2.1 with
  | .error e => setError r.1 e
  | .ok _ => r.1

/-- The driver loop of `Run`, unrolled over the environments of the
successive iterations. -/
def Run (ext : Checker) : List ExecEnv → Checker
  | [] => ext
  | env :: rest => Run (runOnce ext env) rest

/-! ### Lemmas about the label map -/

theorem labelValue_setLabel_same (m : List (String × String)) (k v : String) :
    labelValue (setLabel m k v) k = v := by
  simp [labelValue, setLabel]

theorem labelValue_setLabel_other (m : List (String × String)) (k v k' : String)
    (h : k' ≠ k) : labelValue (setLabel m k v) k' = labelValue m k' := by
  have hb : (k == k') = false := by
    simp only [beq_eq_false_iff_ne, ne_eq]
    exact fun hk => h hk.symm
  simp only [labelValue, setLabel]
  rw [List.find?_cons_of_neg _ (by simp [hb])]
  congr 1
  induction m with
  | nil => rfl
  | cons p rest ih =>
    by_cases hp : p.1 = k
    · have : (p.1 == k') = false := by
        simp only [beq_eq_false_iff_ne, ne_eq, hp]
        exact fun hk => h hk.symm
      rw [List.filter_cons_of_neg (by simp [hp]), List.find?_cons_of_neg _ (by simp [this]), ih]
    · rw [List.filter_cons_of_pos (by simp [hp])]
      by_cases hk' : p.1 = k'
      · rw [List.find?_cons_of_pos _ (by simp [hk']), List.find?_cons_of_pos _ (by simp [hk'])]
      · rw [List.find?_cons_of_neg _ (by simp [hk']), List.find?_cons_of_neg _ (by simp [hk']), ih]

/-- A string has length zero exactly when it is the empty string
(bridges Go's `len(s) == 0` test to equality with `""`). -/
theorem string_length_zero_iff (s : String) : s.length = 0 ↔ s = "" := by
  rw [String.ext_iff]
  rw [show ("" : String).data = [] from rfl]
  exact List.length_eq_zero

/-! ### Claim theorems -/

/-- Claim C5: `validatePodSpec` returns an error if and only if the pod
template is absent, the container list is empty, or some container has
an empty image reference; on any valid template it returns success. -/
theorem validatePodSpec_invalid_iff (ext : Checker) :
    (∃ e, validatePodSpec ext = .error e) ↔
      (ext.PodSpec = none ∨
        ∃ ps, ext.PodSpec = some ps ∧
          (ps.containers = [] ∨ ∃ c ∈ ps.containers, c.image = "")) := by
  rcases hps : ext.PodSpec with _ | ps
  · simp [validatePodSpec, hps]
  · simp only [validatePodSpec, hps]
    by_cases hc : ps.containers = []
    · simp [hc]
    · have hlen : ¬ ps.containers.length = 0 := by
        simpa [List.length_eq_zero] using hc
      simp only [hlen, Bool.false_and, if_neg, decide_eq_true_eq, if_false]
      rcases hf : ps.containers.find? (fun c => c.image.length = 0) with _ | c
      · have hnone : ∀ c ∈ ps.containers, c.image ≠ "" := by
          intro c hcmem
          have := List.find?_eq_none.mp hf c hcmem
          simpa [string_length_zero_iff] using this
        simp only [hf]
        constructor
        · rintro ⟨e, he⟩
          exact absurd he (by simp)
        · rintro (h | ⟨ps', hps', (h | ⟨c, hcmem, hcim⟩)⟩)
          · exact absurd h (by simp)
          · cases hps'
            exact absurd h hc
          · cases hps'
            exact absurd hcim (hnone c hcmem)
      · have hc' := List.find?_some hf
        have hmem := List.mem_of_find?_eq_some hf
        simp only [hf]
        constructor
        · intro _
          refine Or.inr ⟨ps, rfl, Or.inr ⟨c, hmem, ?_⟩⟩
          simpa [string_length_zero_iff] using hc'
        · intro _
          exact ⟨_, rfl⟩

/-- Claim C7: `CurrentStatus` returns OK with an empty diagnostic list
exactly when the error buffer is empty, and Failing together with the
error buffer otherwise; it is a pure read of the checker state. -/
theorem currentStatus_spec (ext : Checker) :
    ((CurrentStatus ext).1 = true ↔ ext.ErrorMessages = []) ∧
    (CurrentStatus ext).2 = ext.ErrorMessages ∧
    (ext.ErrorMessages = [] → CurrentStatus ext = (true, [])) ∧
    (ext.ErrorMessages ≠ [] → CurrentStatus ext = (false, ext.ErrorMessages)) := by
  unfold CurrentStatus
  rcases h : ext.ErrorMessages with _ | ⟨a, l⟩ <;> simp [h]

/-- Witness for C7 at a concrete failing checker. -/
theorem currentStatus_spec_witness :
    CurrentStatus { New "kuberhealthy" with ErrorMessages := ["bad"] } = (false, ["bad"]) :=
  (currentStatus_spec { New "kuberhealthy" with ErrorMessages := ["bad"] }).2.2.2 (by decide)

/-- Claim C9: `New` carries the documented defaults (10 min interval,
5 min startup timeout, 15 min max run time, the default reporting URL
and check name), and for every checker `Name()` is `"external-check-"`
followed by the check name. -/
theorem new_defaults (podNamespace : String) (ext : Checker) :
    (New podNamespace).RunInterval = 10 * timeMinute ∧
    (New podNamespace).startupTimeout = 5 * timeMinute ∧
    (New podNamespace).maxRunTime = 15 * timeMinute ∧
    (New podNamespace).KuberhealthyReportingURL = "http://kuberhealthy.kuberhealthy.svc.local" ∧
    (New podNamespace).CheckName = "external-check" ∧
    (New podNamespace).PodName = "external-check" ∧
    ext.Name = "external-check-" ++ ext.CheckName := by
  refine ⟨by norm_num [New, defaultRunInterval, timeMinute],
    by norm_num [New, defaultMaxStartTime, timeMinute],
    by norm_num [New, defaultMaxRunTime, timeMinute], rfl, rfl, rfl, ?_⟩
  show NamePrefix ++ "-" ++ ext.CheckName = "external-check-" ++ ext.CheckName
  have h1 : NamePrefix ++ "-" = "external-check-" := rfl
  rw [← h1]

/-- Claim C10: `podExists` reports the pod as existing exactly when the
get succeeds, the start time is non-zero and the phase is not Failed; a
Failed or not-yet-started pod is reported absent even though the API
returned it, and any get error is propagated as an error. -/
theorem podExists_spec :
    (∀ p : Pod, podExists (.ok p) = .ok true ↔
        (p.status.startTime ≠ 0 ∧ p.status.phase ≠ PodFailed)) ∧
    (∀ e, podExists (.error e) = .error e) ∧
    (∀ p : Pod, p.status.phase = PodFailed → podExists (.ok p) = .ok false) ∧
    (∀ p : Pod, p.status.startTime = 0 → podExists (.ok p) = .ok false) := by
  refine ⟨?_, fun e => rfl, ?_, ?_⟩
  · intro p
    by_cases h : p.status.startTime ≠ 0 ∧ p.status.phase ≠ PodFailed <;>
      simp [podExists, h]
  · intro p h
    simp [podExists, h]
  · intro p h
    simp [podExists, h]

/-- An empty pod spec (every field at its Go zero value), used to build
concrete inputs. -/
def emptyPodSpec : PodSpec :=
  { hostname := "", containers := [], initContainers := [], restartPolicy := "",
    nodeSelector := [], tolerations := [], volumes := [], serviceAccountName := "" }

/-- A concrete pod in `Failed` phase that the API still returns. -/
def failedApiPod : Pod :=
  { name := "external-check", ns := "kuberhealthy", labels := [],
    spec := emptyPodSpec,
    status := { phase := "Failed", startTime := 5 } }

/-- Witness for C10: a Failed pod that the API still returns is
reported as not existing. -/
theorem podExists_spec_witness : podExists (.ok failedApiPod) = .ok false :=
  podExists_spec.2.2.1 failedApiPod rfl

/-- Claim C4: on a template that is present, the decorate step sets the
pod hostname to the check name, appends exactly the two variables
`KUBERHEALTHY_URL` (the reporting URL) and `KUBERHEALTHY_RUN_ID` (the
current run ID) to every container's environment after any
caller-supplied variables, forces the restart policy to `Never`, and
`addKuberhealthyLabels` attaches the check-name and run-id labels to
the pod metadata; decoration always succeeds. -/
theorem decorate_spec (ext : Checker) (ps : PodSpec) (hps : ext.PodSpec = some ps)
    (pod : Pod) :
    (configureUserPodSpec ext = some { ext with
      PodSpec := some { ps with
        hostname := ext.CheckName
        containers := ps.containers.map (fun c => { c with
          env := c.env ++
            [{ name := "KUBERHEALTHY_URL", value := ext.KuberhealthyReportingURL },
             { name := "KUBERHEALTHY_RUN_ID", value := ext.currentCheckUUID }] })
        restartPolicy := "Never" } }) ∧
    labelValue (addKuberhealthyLabels ext pod).labels kuberhealthyCheckNameLabel
      = ext.CheckName ∧
    labelValue (addKuberhealthyLabels ext pod).labels kuberhealthyRunIDLabel
      = ext.currentCheckUUID := by
  refine ⟨?_, ?_, ?_⟩
  · simp [configureUserPodSpec, configuredChecker, decoratedPodSpec, hps,
      overwriteEnvVars, RestartPolicyNever]
  · simp only [addKuberhealthyLabels]
    exact labelValue_setLabel_same _ _ _
  · simp only [addKuberhealthyLabels]
    rw [labelValue_setLabel_other _ _ _ _ (by decide)]
    exact labelValue_setLabel_same _ _ _

/-- A concrete checker used as witness input: the defaults with a
one-container pod template attached, as the driving supervisor would
configure it. -/
def sampleContainer : Container :=
  { name := "check", image := "echo:latest", command := ["/app/run"], args := ["-v"],
    env := [{ name := "USER_VAR", value := "user" }],
    resources := "cpu:100m", volumeMounts := ["data"] }

/-- A one-container pod template. -/
def samplePodSpec : PodSpec :=
  { hostname := "", containers := [sampleContainer], initContainers := [],
    restartPolicy := "Always", nodeSelector := [("disk", "ssd")],
    tolerations := ["gpu"], volumes := ["data"], serviceAccountName := "checker-sa" }

/-- The defaults with the sample template attached and a run ID minted. -/
def sampleChecker : Checker :=
  { New "kuberhealthy" with PodSpec := some samplePodSpec, currentCheckUUID := "uuid-1" }

/-- A bare pod to decorate. -/
def samplePod : Pod :=
  { name := "external-check", ns := "kuberhealthy", labels := [("team", "sre")],
    spec := samplePodSpec, status := { phase := "Pending", startTime := 0 } }

/-- Witness for C4 at the concrete sample checker. -/
theorem decorate_spec_witness :
    configureUserPodSpec sampleChecker = some { sampleChecker with
      PodSpec := some { samplePodSpec with
        hostname := "external-check"
        containers := [{ sampleContainer with
          env := [{ name := "USER_VAR", value := "user" },
                  { name := "KUBERHEALTHY_URL",
                    value := "http://kuberhealthy.kuberhealthy.svc.local" },
                  { name := "KUBERHEALTHY_RUN_ID", value := "uuid-1" }] }]
        restartPolicy := "Never" } } :=
  (decorate_spec sampleChecker samplePodSpec rfl samplePod).1

/-- Claim C8: the decorate step mutates only the listed fields.  Each
frame fact is stated as a record overwrite: writing the mutated fields
of the original back onto the decorated value recovers the original
exactly, so every field outside that list — node selectors,
tolerations, volumes, service account, init containers, and (via the
env-erasure map) every container's name, image, command, args,
resources and volume mounts — is unchanged.  On the checker only the
pod spec is written; `addKuberhealthyLabels` writes only the pod's
labels, and labels under any key other than the two kuberhealthy keys
keep their value. -/
theorem decorate_frame (ext : Checker) (ps : PodSpec) (hps : ext.PodSpec = some ps)
    (pod : Pod) (k : String) (hk1 : k ≠ kuberhealthyCheckNameLabel)
    (hk2 : k ≠ kuberhealthyRunIDLabel) :
    ∃ ext2 ps2, configureUserPodSpec ext = some ext2 ∧ ext2.PodSpec = some ps2 ∧
      ({ ext2 with PodSpec := ext.PodSpec } : Checker) = ext ∧
      ({ ps2 with hostname := ps.hostname, containers := ps.containers,
                  restartPolicy := ps.restartPolicy } : PodSpec) = ps ∧
      ps2.containers.map (fun c => { c with env := [] })
        = ps.containers.map (fun c => { c with env := [] }) ∧
      ({ addKuberhealthyLabels ext pod with labels := pod.labels } : Pod) = pod ∧
      labelValue (addKuberhealthyLabels ext pod).labels k = labelValue pod.labels k := by
  refine ⟨configuredChecker ext ps, decoratedPodSpec ext ps, ?_, rfl, rfl, rfl, ?_, rfl, ?_⟩
  · simp [configureUserPodSpec, hps]
  · simp only [decoratedPodSpec, List.map_map]
    rfl
  · simp only [addKuberhealthyLabels]
    rw [labelValue_setLabel_other _ _ _ _ hk1, labelValue_setLabel_other _ _ _ _ hk2]

/-- Witness for C8 at the concrete sample checker: the user label under
the key `team` passes through unchanged. -/
theorem decorate_frame_witness :
    labelValue (addKuberhealthyLabels sampleChecker samplePod).labels "team" = "sre" := by
  have h := decorate_frame sampleChecker samplePodSpec rfl samplePod "team"
    (by decide) (by decide)
  obtain ⟨ext2, ps2, -, -, -, -, -, -, hlast⟩ := h
  rw [hlast]
  rfl

/-- A deployed variant of the sample checker (pod-deployed flag set, as
after a successful startup phase). -/
def deployedChecker : Checker :=
  { sampleChecker with PodDeployed := true }

/-- A shutdown environment in which the pod is genuinely absent from
the API: the delete succeeds and the first poll's get fails with the
API's not-found error. -/
def absentPodEnv : ShutdownEnv :=
  { deleteResult := .ok ()
    pollTrace := [{ getResult := .error "pod not found", ctxDone := false }] }

/-- Counterexample to claim C2 as stated: with the pod deployed and the
delete issued, a poll in which the pod is absent from the API (the get
returns not-found) makes `Shutdown` return that error — not success. -/
theorem shutdown_counterexample :
    Shutdown deployedChecker absentPodEnv
      = (some (.error "pod not found"),
         [.deleteBySelector "kuberhealthy-check-name=external-check",
          .getPod "external-check"]) ∧
    (Shutdown deployedChecker absentPodEnv).1 ≠ some (.ok ()) := by
  refine ⟨rfl, ?_⟩
  intro hcontra
  rw [show (Shutdown deployedChecker absentPodEnv).1
      = some (.error "pod not found") from rfl] at hcontra
  simp at hcontra

/-- Claim C2 (amended): `Shutdown` with the pod-deployed flag false
returns success immediately with no API call; with the flag true it
issues delete-by-selector, propagates a delete failure, and otherwise
polls `podExists` (one get per 500 ms turn): a poll reporting the pod
as not existing returns success, a poll whose get fails returns that
error, and a poll that still sees the pod after the cancellation signal
(auto-fired after `Timeout()`, i.e. the max run time) returns the
shutdown-timeout error. -/
theorem shutdown_spec (ext : Checker) (env : ShutdownEnv) (s : PollStep)
    (rest : List PollStep) :
    (ext.PodDeployed = false → Shutdown ext env = (some (.ok ()), [])) ∧
    (∀ e, ext.PodDeployed = true → env.deleteResult = .error e →
      Shutdown ext env = (some (.error e), [.deleteBySelector (selectorFor ext)])) ∧
    (ext.PodDeployed = true → env.deleteResult = .ok () →
      Shutdown ext env = ((waitForShutdown ext.PodName env.pollTrace).1,
        .deleteBySelector (selectorFor ext) :: (waitForShutdown ext.PodName env.pollTrace).2)) ∧
    (podExists s.getResult = .ok false →
      waitForShutdown ext.PodName (s :: rest) = (some (.ok ()), [.getPod ext.PodName])) ∧
    (∀ e, podExists s.getResult = .error e →
      waitForShutdown ext.PodName (s :: rest) = (some (.error e), [.getPod ext.PodName])) ∧
    (podExists s.getResult = .ok true → s.ctxDone = true →
      waitForShutdown ext.PodName (s :: rest)
        = (some (.error "timed out when waiting for pod to shutdown"), [.getPod ext.PodName])) ∧
    (podExists s.getResult = .ok true → s.ctxDone = false →
      waitForShutdown ext.PodName (s :: rest)
        = ((waitForShutdown ext.PodName rest).1,
           .getPod ext.PodName :: (waitForShutdown ext.PodName rest).2)) ∧
    ext.Timeout = ext.maxRunTime := by
  refine ⟨?_, ?_, ?_, ?_, ?_, ?_, ?_, rfl⟩
  · intro h
    simp [Shutdown, h]
  · intro e h hdel
    simp [Shutdown, h, hdel]
  · intro h hdel
    simp [Shutdown, h, hdel]
  · intro h
    simp [waitForShutdown, h]
  · intro e h
    simp [waitForShutdown, h]
  · intro h hd
    simp [waitForShutdown, h, hd]
  · intro h hd
    simp [waitForShutdown, h, hd]

/-- Witness for C2 (amended): the sample checker is not deployed, so
`Shutdown` succeeds at once with no API action. -/
theorem shutdown_spec_witness :
    Shutdown sampleChecker absentPodEnv = (some (.ok ()), []) :=
  (shutdown_spec sampleChecker absentPodEnv
    { getResult := .ok failedApiPod, ctxDone := false } []).1 rfl

/-- A watch event whose payload is not skipped and does not satisfy the
startup predicate, with the cancellation context quiet: the drain loop
keeps going past it; used to describe streams that end prematurely. -/
def eventSkippedOrQuiet (runID : String) (e : WatchEvent) : Prop :=
  match e.pod with
  | none => True
  | some p =>
    labelValue p.labels kuberhealthyRunIDLabel ≠ runID ∨
      (¬(p.status.phase = PodRunning ∨ p.status.phase = PodFailed) ∧ e.ctxDone = false)

/-- The oracle environment for a successful iteration in which the
startup watch closes after zero events. -/
def prematureEnv : ExecEnv :=
  { newUUID := "uuid-1", deleteStraysResult := .ok (), createResult := .ok ()
    startupTimerFired := false, startupDeleteResult := .ok (), startupWatch := .ok []
    runTimerFired := false, runDeleteResult := .ok (), runWatch := .ok [] }

/-- The sample checker as `execute` sees it after the client and the
run UUID are set. -/
def startedSampleChecker : Checker :=
  { sampleChecker with hasKubeClient := true, currentCheckUUID := "uuid-1" }

/-- Counterexample to claim C3 as stated: when the startup watch closes
after zero events the watcher does buffer the premature-close error
into its channel, but `execute` receives and discards that value, so
the iteration proceeds and here completes with success — it does not
fail. -/
theorem premature_close_counterexample :
    waitForPodRunning startedSampleChecker (.ok [])
      = .error "external checker watch aborted pre-maturely" ∧
    (execute sampleChecker prematureEnv).2.1 = .ok () :=
  ⟨rfl, rfl⟩

/-- Claim C3 (amended): the startup-phase drain loop skips non-pod
payloads and pods whose run-id label differs from the current run ID,
signals success on a matching pod in phase Running or Failed, and
signals the premature-close error when the stream ends before the
predicate fires and before cancellation (in particular after zero
events); the engine, however, discards the value the watcher sends, so
`execute` does not depend on the startup watch outcome at all. -/
theorem waitForPodRunning_spec (runID : String) :
    (∀ (d : Bool) (rest : List WatchEvent),
      drainPodRunning runID ({ pod := none, ctxDone := d } :: rest)
        = drainPodRunning runID rest) ∧
    (∀ (p : Pod) (d : Bool) (rest : List WatchEvent),
      labelValue p.labels kuberhealthyRunIDLabel ≠ runID →
      drainPodRunning runID ({ pod := some p, ctxDone := d } :: rest)
        = drainPodRunning runID rest) ∧
    (∀ (p : Pod) (d : Bool) (rest : List WatchEvent),
      labelValue p.labels kuberhealthyRunIDLabel = runID →
      (p.status.phase = PodRunning ∨ p.status.phase = PodFailed) →
      drainPodRunning runID ({ pod := some p, ctxDone := d } :: rest) = .ok ()) ∧
    (drainPodRunning runID [] = .error "external checker watch aborted pre-maturely") ∧
    (∀ events : List WatchEvent, (∀ e ∈ events, eventSkippedOrQuiet runID e) →
      drainPodRunning runID events = .error "external checker watch aborted pre-maturely") ∧
    (∀ (ext : Checker) (env : ExecEnv) (w : Except String (List WatchEvent)),
      execute ext { env with startupWatch := w } = execute ext env) := by
  refine ⟨?_, ?_, ?_, rfl, ?_, ?_⟩
  · intro d rest
    simp [drainPodRunning]
  · intro p d rest h
    simp [drainPodRunning, h]
  · intro p d rest h hphase
    simp [drainPodRunning, h, hphase]
  · intro events hall
    induction events with
    | nil => rfl
    | cons e rest ih =>
      have he := hall e (List.mem_cons_self e rest)
      have hrest := fun e' he' => hall e' (List.mem_cons_of_mem e he')
      rcases hev : e.pod with _ | p
      · rcases e with ⟨ep, ed⟩
        cases hev
        simpa [drainPodRunning] using ih hrest
      · rcases e with ⟨ep, ed⟩
        cases hev
        rw [eventSkippedOrQuiet] at he
        simp only at he
        rcases he with hlbl | ⟨hph, hdone⟩
        · simpa [drainPodRunning, hlbl] using ih hrest
        · by_cases hlbl : labelValue p.labels kuberhealthyRunIDLabel = runID
          · simpa [drainPodRunning, hlbl, hph, hdone] using ih hrest
          · simpa [drainPodRunning, hlbl] using ih hrest
  · intro ext env w
    cases env
    rfl

/-- A pod carrying the current run-id label in phase `Running`. -/
def runningEventPod : Pod :=
  { samplePod with
    labels := [("kuberhealthy-run-id", "uuid-1")],
    status := { phase := "Running", startTime := 3 } }

/-- Witness for C3 (amended): a matching Running pod makes the drain
loop signal success. -/
theorem waitForPodRunning_spec_witness :
    drainPodRunning "uuid-1" [{ pod := some runningEventPod, ctxDone := false }] = .ok () :=
  (waitForPodRunning_spec "uuid-1").2.2.1 runningEventPod false [] (by rfl) (Or.inl (by rfl))

/-- A checker that passed validation has a pod template attached. -/
theorem validatePodSpec_ok_some (x : Checker) (h : validatePodSpec x = .ok ()) :
    ∃ ps, x.PodSpec = some ps := by
  rcases hps : x.PodSpec with _ | ps
  · rw [validatePodSpec, hps] at h
    exact absurd h (by simp)
  · exact ⟨ps, rfl⟩

/-- Claim C6: when the startup timer fires before the startup watcher
signals, `execute` cancels the watcher, issues a delete against the
checker's pods, and aborts the iteration with the error
"failed to see pod running within timeout"; when that delete itself
fails, the delete error's message is concatenated onto it. -/
theorem execute_startup_timeout (ext0 : Checker) (env : ExecEnv)
    (hv : validatePodSpec (withClientAndUUID ext0 env.newUUID) = .ok ())
    (hns : ext0.Namespace ≠ "") (hpn : ext0.PodName ≠ "")
    (hds : env.deleteStraysResult = .ok ())
    (hcr : env.createResult = .ok ())
    (ht : env.startupTimerFired = true) :
    ∃ extC, configureUserPodSpec (withClientAndUUID ext0 env.newUUID) = some extC ∧
      (env.startupDeleteResult = .ok () →
        execute ext0 env = (extC, .error "failed to see pod running within timeout",
          [.deleteBySelector (selectorFor extC), .createPod (buildCheckerPod extC),
           .cancelWatch, .deleteBySelector (selectorFor extC)])) ∧
      (∀ e, env.startupDeleteResult = .error e →
        execute ext0 env = (extC,
          .error ("failed to see pod running within timeout"
            ++ " and an error occurred when deleting the pod:" ++ e),
          [.deleteBySelector (selectorFor extC), .createPod (buildCheckerPod extC),
           .cancelWatch, .deleteBySelector (selectorFor extC)])) := by
  obtain ⟨ps, hps⟩ := validatePodSpec_ok_some _ hv
  have hconf : configureUserPodSpec (withClientAndUUID ext0 env.newUUID)
      = some (configuredChecker (withClientAndUUID ext0 env.newUUID) ps) := by
    simp [configureUserPodSpec, hps]
  have hsan : sanityCheck (configuredChecker (withClientAndUUID ext0 env.newUUID) ps)
      = .ok () := by
    simp [sanityCheck, configuredChecker, withClientAndUUID, hns, hpn]
  refine ⟨_, hconf, ?_, ?_⟩
  · intro hok
    simp [execute, hv, hconf, hsan, hds, hcr, ht, hok]
  · intro e herr
    simp [execute, hv, hconf, hsan, hds, hcr, ht, herr]

/-- The oracle environment in which the startup timer fires before the
watcher signals and the cleanup delete succeeds. -/
def startupTimeoutEnv : ExecEnv :=
  { prematureEnv with startupTimerFired := true }

/-- Witness for C6 at the concrete sample checker. -/
theorem execute_startup_timeout_witness :
    (execute sampleChecker startupTimeoutEnv).2.1
      = .error "failed to see pod running within timeout" := by
  obtain ⟨extC, hconf, hok, herr⟩ := execute_startup_timeout sampleChecker startupTimeoutEnv
    rfl (by decide) (by decide) rfl rfl rfl
  rw [hok rfl]

/-- An iteration environment that fails at the delete-strays step. -/
def failingEnv : ExecEnv :=
  { prematureEnv with deleteStraysResult := .error "boom" }

/-- Claim C1: the spec says a successful iteration resets the error
buffer, so a success after a failure reports OK with an empty list.
The source never clears `ErrorMessages` on success (its `clearErrors`
is never called), so after a failing iteration followed by a fully
successful one the stale failure is still reported.  The first conjunct
confirms the second iteration itself succeeded; the second evaluates
the status query after the two iterations. -/
theorem run_keeps_stale_error :
    (execute (runOnce sampleChecker failingEnv) prematureEnv).2.1 = .ok () ∧
    CurrentStatus (Run sampleChecker [failingEnv, prematureEnv])
      = (false, ["failed to clean up pods before starting external checker: boom"]) :=
  ⟨rfl, rfl⟩

end Kuberhealthy
